import Mathlib

/-!
Verification of openrc-watch (src/openrc-watch.py) against its design
specification.  The program is shallowly embedded: the filesystem and
process-table state consumed by the code is an explicit `FS` snapshot,
Python exceptions become `Except PyErr`, and the Python string and list
primitives used by the source are modelled structurally over `List Char`
so that every definition evaluates inside the kernel.
-/

namespace OpenrcWatch

/-- Python exceptions raised by the translated code paths: ValueError from
int(), IOError from open() on a missing file, TypeError from os.path.isfile
applied to None. -/
inductive PyErr where
  | valueError
  | ioError
  | typeError
deriving DecidableEq, Repr

/-- Model of Python str.rstrip(): drop trailing whitespace characters. -/
def pyRstrip (s : String) : String :=
  String.mk (s.toList.reverse.dropWhile Char.isWhitespace).reverse

/-- Split a character list at the first occurrence of the separator: the part
before it and, when the separator occurs, the unsplit remainder.  This is
Python s.split(sep, 1) for a one-character separator. -/
def splitFirstChar (sep : Char) : List Char → List Char × Option (List Char)
  | [] => ([], none)
  | c :: rest =>
    if c = sep then ([], some rest)
    else
      let r := splitFirstChar sep rest
      (c :: r.1, r.2)

/-- Model of Python line.split('=', 1) after rstrip, together with the
source's padding of a missing value with None (source lines 33-36): the key
and the optional value. -/
def pySplit1 (sep : Char) (s : String) : String × Option String :=
  let r := splitFirstChar sep s.toList
  (String.mk r.1, r.2.map String.mk)

/-- Model of Python s.split(sep) for a one-character separator: split at every
occurrence. -/
def splitAllChar (sep : Char) : List Char → List (List Char)
  | [] => [[]]
  | c :: rest =>
    let r := splitAllChar sep rest
    if c = sep then [] :: r
    else
      match r with
      | [] => [[c]]
      | h :: t => (c :: h) :: t

/-- Model of Python s.startswith(pre). -/
def pyStartsWith (s pre : String) : Bool :=
  pre.toList.isPrefixOf s.toList

/-- Model of Python s.lower() for the ASCII option strings used here. -/
def pyLower (s : String) : String :=
  String.mk (s.toList.map Char.toLower)

/-- Model of Python int(s) on a base-10 string: optional surrounding
whitespace, optional sign, then at least one decimal digit; none models the
ValueError raised on anything else. -/
def pyInt? (s : String) : Option Int :=
  let t := ((s.toList.dropWhile Char.isWhitespace).reverse.dropWhile
    Char.isWhitespace).reverse
  let signed : Bool × List Char :=
    match t with
    | '-' :: rest => (true, rest)
    | '+' :: rest => (false, rest)
    | other => (false, other)
  if signed.2.isEmpty then none
  else if signed.2.all Char.isDigit then
    let n : Nat := signed.2.foldl (fun acc c => acc * 10 + (c.toNat - 48)) 0
    some (if signed.1 then -(n : Int) else (n : Int))
  else none

/-- Model of os.path.basename for the slash-separated paths used here. -/
def basename (p : String) : String :=
  String.mk ((splitAllChar '/' p.toList).getLastD [])

/-- Model of Python list.index combined with the membership test: the first
index holding the element, if any. -/
def pyIndex? {α : Type} [DecidableEq α] (l : List α) (a : α) : Option Nat :=
  match l with
  | [] => none
  | x :: rest => if x = a then some 0 else (pyIndex? rest a).map (· + 1)

/-- Model of Python dict assignment d[k] = v: replace the value at an
existing key in place, otherwise add a new binding. -/
def dictSet {α β : Type} [DecidableEq α] (d : List (α × β)) (k : α) (v : β) :
    List (α × β) :=
  if d.any (fun kv => kv.1 = k) then
    d.map (fun kv => if kv.1 = k then (k, v) else kv)
  else d ++ [(k, v)]

/-- Abstract snapshot of the filesystem and process table consumed by the
program: the glob result for the started-services runtime directory (full
paths), the glob results for each service's daemons directory (full paths,
indexed by service name), regular-file contents as logical lines with the
trailing newline removed (none models a path that is not a regular file),
and process liveness as seen by os.kill(pid, 0). -/
structure FS where
  globStarted : List String
  globDaemons : String → List String
  files : String → Option (List String)
  alive : Int → Bool

/-- check_pid (source lines 12-17): os.kill(pid, 0) succeeds exactly when the
process exists and is signalable; every OSError becomes false. -/
def check_pid (fs : FS) (pid : Int) : Bool :=
  fs.alive pid

/-- query_user (source lines 19-26), driven by the queue of operator
responses read by raw_input: the result none means the loop consumed every
supplied response and is still waiting; some none models the Python function
returning None; some (some s) models returning option s in its original
casing. -/
def query_user (query : String) (opts : List String) :
    List String → Option (Option String)
  | [] => none
  | r :: rest =>
    let response := pyLower r
    let lower_opts := opts.map pyLower
    match pyIndex? lower_opts response with
    | some i => some (opts.get? i)
    | none =>
      if opts.length ≤ 1 then some none
      else query_user query opts rest

/-- Result of load_daemon: the materialized argv value list and the optional
resolved pid (source dict keys 'argv' and 'pid'). -/
structure Daemon where
  argv : List (Option String)
  pid : Option Int
deriving DecidableEq, Repr

/-- Accumulator state of the line loop of load_daemon: the argv dictionary
(an association list in key-insertion order, replacing on repeated keys,
like a Python dict at the key-set level) and the pid field, initialized to
None at source line 31. -/
structure DState where
  argv : List (Int × Option String)
  pid : Option Int
deriving DecidableEq, Repr

/-- One iteration of the line loop of load_daemon (source lines 32-47):
split the rstripped line on the first '=', record argv_<N> values under the
integer N (int() on a malformed index raises ValueError), and for a pidfile
key resolve the named file's first line to a live pid; a pid file that
exists with a non-integer first line raises ValueError, and a pidfile key
without '=' makes os.path.isfile(None) raise TypeError. -/
def loadDaemonLine (fs : FS) (st : DState) (line : String) :
    Except PyErr DState :=
  let kv := pySplit1 '=' (pyRstrip line)
  if pyStartsWith kv.1 "argv_" then
    match pyInt? (String.mk ((splitAllChar '_' kv.1.toList).getD 1 [])) with
    | none => .error .valueError
    | some index => .ok { st with argv := dictSet st.argv index kv.2 }
  else if kv.1 = "pidfile" then
    match kv.2 with
    | none => .error .typeError
    | some v =>
      match fs.files v with
      | none => .ok st
      | some content =>
        match pyInt? (pyRstrip (content.headD "")) with
        | none => .error .valueError
        | some pid =>
          .ok (if check_pid fs pid then { st with pid := some pid } else st)
  else .ok st

/-- The for loop of load_daemon over the file's lines: a raised exception
aborts the loop and propagates. -/
def loadDaemonLines (fs : FS) (st : DState) :
    List String → Except PyErr DState
  | [] => .ok st
  | line :: rest =>
    match loadDaemonLine fs st line with
    | .error e => .error e
    | .ok st' => loadDaemonLines fs st' rest

/-- load_daemon (source lines 28-52): open the file (IOError when the path
is not a readable regular file), run the line loop over its lines, then
materialize argv as the dict's value list, or the empty list when no argv
key was seen.  CPython 2 leaves the iteration order of dict.values()
unspecified; this model fixes key-insertion order, and no theorem below
depends on that order. -/
def load_daemon (fs : FS) (path : String) : Except PyErr Daemon :=
  match fs.files path with
  | none => .error .ioError
  | some ls =>
    match loadDaemonLines fs { argv := [], pid := none } ls with
    | .error e => .error e
    | .ok st => .ok { argv := st.argv.map (fun kv => kv.2), pid := st.pid }

/-- The per-service record built by load_daemons (source lines 58-66). -/
structure Service where
  status : String
  daemons : List Daemon
deriving DecidableEq, Repr

/-- One iteration of the inner loop of load_daemons (source lines 62-66):
one iteration per entry of the daemons/<name>/ glob.  Note that the source
calls load_daemon(path) at line 63, where path is the started-marker path
bound at line 56, not the glob entry bound at line 62; the entry is ignored
beyond driving the iteration. -/
def loadDaemonsInner (fs : FS) (path : String) (svc : Service)
    (_entry : String) : Except PyErr Service :=
  match load_daemon fs path with
  | .error e => .error e
  | .ok daemon =>
    if daemon.pid = none then
      .ok { status := "stopped", daemons := svc.daemons ++ [daemon] }
    else
      .ok { svc with daemons := svc.daemons ++ [daemon] }

/-- The for loop of load_daemons over one service's daemons glob (source
lines 62-66). -/
def loadDaemonsLoop (fs : FS) (path : String) (svc : Service) :
    List String → Except PyErr Service
  | [] => .ok svc
  | entry :: rest =>
    match loadDaemonsInner fs path svc entry with
    | .error e => .error e
    | .ok svc' => loadDaemonsLoop fs path svc' rest

/-- The for loop of load_daemons over the started-markers glob (source
lines 56-66): each marker contributes a service record, named by the
marker's basename, starting as started with no daemons and updated by the
inner loop. -/
def loadServicesLoop (fs : FS) (services : List (String × Service)) :
    List String → Except PyErr (List (String × Service))
  | [] => .ok services
  | path :: rest =>
    match loadDaemonsLoop fs path { status := "started", daemons := [] }
        (fs.globDaemons (basename path)) with
    | .error e => .error e
    | .ok svc => loadServicesLoop fs (dictSet services (basename path) svc) rest

/-- load_daemons (source lines 54-67). -/
def load_daemons (fs : FS) : Except PyErr (List (String × Service)) :=
  loadServicesLoop fs [] fs.globStarted

/-- Lookup daemons[service] in the services mapping. -/
def svcLookup (daemons : List (String × Service)) (service : String) :
    Option Service :=
  (daemons.find? (fun kv => kv.1 = service)).map (fun kv => kv.2)

/-- The membership condition of check_daemons (source lines 73-74): service
is in the mapping with status stopped, or service is not in the mapping. -/
def missingCond (daemons : List (String × Service)) (service : String) :
    Bool :=
  match svcLookup daemons service with
  | some svc => decide (svc.status = "stopped")
  | none => true

/-- The accumulation loop of check_daemons (source lines 71-76) as a
function of the required names and the services mapping: the Python set
becomes a Finset. -/
def computeMissing (required : List String)
    (daemons : List (String × Service)) : Finset String :=
  required.foldl
    (fun missing service =>
      if missingCond daemons service then insert service missing else missing)
    ∅

/-- check_daemons (source lines 69-76): load the services mapping from the
filesystem, then run the accumulation loop; a propagating exception aborts
the whole call. -/
def check_daemons (fs : FS) (required : List String) :
    Except PyErr (Finset String) :=
  match load_daemons fs with
  | .error e => .error e
  | .ok daemons => .ok (computeMissing required daemons)

/-- Input to one poll tick of monitor_services: the filesystem snapshot seen
by check_daemons, whether a KeyboardInterrupt arrives during the sleep of
that tick (the only point where the source catches it, lines 107-113), and
the operator responses available to the confirmation prompt. -/
structure Tick where
  fs : FS
  interrupt : Bool
  responses : List String

/-- Observable step of monitor_services: a completed check_daemons call, a
handler invocation with its keyword arguments, an undisturbed sleep, or the
confirmation prompt. -/
inductive MEvent where
  | checked (missing : Finset String)
  | handlerCall (status : String) (services : Option (Finset String))
  | slept (seconds : Nat)
  | prompted
deriving DecidableEq

/-- How a run of monitor_services ended: broke out of the while loop, ran
out of supplied tick inputs while still looping, aborted on a propagating
exception from check_daemons, or blocked on the prompt with no responses
left. -/
inductive MOutcome where
  | exited
  | outOfTicks
  | crashed (e : PyErr)
  | blocked
deriving DecidableEq

/-- The sleep phase of one tick (source lines 107-113): an undisturbed sleep
continues with the next iteration; a KeyboardInterrupt routes to query_user
over Y and N, where an answer equal to "Y" breaks out of the loop and any
other answer resumes, and exhausted responses leave the prompt blocked. -/
def sleepPhase (timeout : Nat) (acc : List MEvent) (t : Tick)
    (next : List MEvent × MOutcome) : List MEvent × MOutcome :=
  if t.interrupt then
    match query_user "Are you sure you want to quit? (Y/N)" ["Y", "N"]
        t.responses with
    | none => (acc ++ [MEvent.prompted], .blocked)
    | some ans =>
      if ans = some "Y" then (acc ++ [MEvent.prompted], .exited)
      else (acc ++ [MEvent.prompted] ++ next.1, next.2)
  else (acc ++ [MEvent.slept timeout] ++ next.1, next.2)

/-- monitor_services (source lines 88-113) over a finite queue of tick
inputs, with the presence of the reaction handler as the attended flag;
handler invocations are recorded as events with their keyword arguments.
Each tick runs check_daemons, then either calls the handler (attended) or
breaks out when the missing set is non-empty (unattended, lines 103-105),
then runs the sleep phase. -/
def monitor_services (required : List String) (timeout : Nat)
    (attended : Bool) : List Tick → List MEvent × MOutcome
  | [] => ([], .outOfTicks)
  | t :: rest =>
    match check_daemons t.fs required with
    | .error e => ([], .crashed e)
    | .ok missing =>
      if attended then
        sleepPhase timeout
          [MEvent.checked missing,
            if 0 < missing.card then
              MEvent.handlerCall "failure" (some missing)
            else MEvent.handlerCall "success" none] t
          (monitor_services required timeout attended rest)
      else if 0 < missing.card then ([MEvent.checked missing], .exited)
      else
        sleepPhase timeout [MEvent.checked missing] t
          (monitor_services required timeout attended rest)

/-- A cleanup action registered with atexit by one of the lifecycle
wrappers: switch to the shutdown runlevel (source line 117), or stop each
named service (source line 137). -/
inductive Cleanup where
  | switchRL (runlevel : String)
  | stopSvcs (services : List String)
deriving DecidableEq

/-- Observable process-level event of a supervision session. -/
inductive PEvent where
  | registered (c : Cleanup)
  | runlevelSwitch (runlevel : String)
  | serviceStart (service : String)
  | loopEnter
  | loopExit (fault : Option PyErr)
  | monitorStep (e : MEvent)
  | cleanupRun (c : Cleanup)
deriving DecidableEq

/-- Handlers registered with atexit run once each, in last-in first-out
order, when the interpreter exits: both after a normal return from main and
after an uncaught exception unwinds past it. -/
def atexitRunAll (registeredActions : List Cleanup) : List PEvent :=
  registeredActions.reverse.map PEvent.cleanupRun

/-- supervise_runlevel (source lines 115-125): register the
switch-to-shutdown-runlevel cleanup, switch to the default runlevel, run the
monitor.  The monitor is abstracted by its event list and an optional
propagating fault; when the fault is not none the events after the loop are
skipped and the exception unwinds to the interpreter.  The function body's
events are paired with the atexit registry, which is empty at process
start. -/
def supervise_runlevel_body (defaultRL shutdownRL : String)
    (mon : List MEvent) (fault : Option PyErr) :
    List PEvent × List Cleanup :=
  ([PEvent.registered (Cleanup.switchRL shutdownRL),
    PEvent.runlevelSwitch defaultRL,
    PEvent.loopEnter]
    ++ mon.map PEvent.monitorStep
    ++ [PEvent.loopExit fault],
   [Cleanup.switchRL shutdownRL])

/-- supervise_services (source lines 135-145): register the
stop-each-service cleanup, start each named service, run the monitor. -/
def supervise_services_body (services : List String)
    (mon : List MEvent) (fault : Option PyErr) :
    List PEvent × List Cleanup :=
  ([PEvent.registered (Cleanup.stopSvcs services)]
    ++ services.map PEvent.serviceStart
    ++ [PEvent.loopEnter]
    ++ mon.map PEvent.monitorStep
    ++ [PEvent.loopExit fault],
   [Cleanup.stopSvcs services])

/-- A full process run: the events of the executed body followed by the
atexit handlers, which the interpreter runs on every exit path, a
propagating fault included. -/
def python_run (body : List PEvent × List Cleanup) : List PEvent :=
  body.1 ++ atexitRunAll body.2

/-- Snapshot with one started service named web whose started-marker file
and single daemon descriptor file have distinguishable contents. -/
def fsMarker : FS where
  globStarted := ["/var/run/openrc/started/web"]
  globDaemons := fun name =>
    if name = "web" then ["/var/run/openrc/daemons/web/001"] else []
  files := fun p =>
    if p = "/var/run/openrc/started/web" then some ["argv_0=marker"]
    else if p = "/var/run/openrc/daemons/web/001" then
      some ["argv_0=descriptor"]
    else none
  alive := fun _ => false

/-- Snapshot with one started service named web whose marker and descriptor
both reference a pid file that exists with a non-integer first line. -/
def fsBadPid : FS where
  globStarted := ["/var/run/openrc/started/web"]
  globDaemons := fun name =>
    if name = "web" then ["/var/run/openrc/daemons/web/001"] else []
  files := fun p =>
    if p = "/var/run/openrc/started/web" then some ["pidfile=/run/web.pid"]
    else if p = "/var/run/openrc/daemons/web/001" then
      some ["pidfile=/run/web.pid"]
    else if p = "/run/web.pid" then some ["not-a-pid"]
    else none
  alive := fun _ => true

/-- C1: on the fsMarker snapshot the aggregator appends, for the single
daemons/web/ descriptor entry, the parse of the started-marker file rather
than the parse of that entry's own descriptor file: the appended DaemonRecord
carries the marker's argv value and differs from the Descriptor Reader's
result on the descriptor entry, refuting the claim that each appended record
is the parse of that daemon's own descriptor. -/
theorem c1_aggregator_parses_marker_not_descriptor :
    load_daemons fsMarker =
      .ok [("web",
        { status := "stopped",
          daemons := [{ argv := [some "marker"], pid := none }] })]
    ∧ load_daemon fsMarker "/var/run/openrc/daemons/web/001" =
        .ok { argv := [some "descriptor"], pid := none }
    ∧ ({ argv := [some "marker"], pid := none } : Daemon)
        ≠ { argv := [some "descriptor"], pid := none } := by
  refine ⟨rfl, rfl, by decide⟩

/-- C2: a pid file that exists with a non-integer first line makes the
Descriptor Reader raise ValueError instead of returning a record with
pid = None, and the same exception propagates through load_daemons into
check_daemons, aborting the poll tick. -/
theorem c2_malformed_pidfile_raises :
    load_daemon fsBadPid "/var/run/openrc/daemons/web/001" =
      .error .valueError
    ∧ check_daemons fsBadPid ["web"] = .error .valueError := by
  refine ⟨rfl, rfl⟩

/-- Snapshot with no runtime state at all, as when the init subsystem is not
running: both glob calls return the empty list. -/
def fsEmpty : FS where
  globStarted := []
  globDaemons := fun _ => []
  files := fun _ => none
  alive := fun _ => false

/-- Membership in the accumulation loop of check_daemons, generalized over
the initial accumulator. -/
theorem mem_missing_foldl (daemons : List (String × Service))
    (required : List String) (m : Finset String) (s : String) :
    s ∈ required.foldl
      (fun missing service =>
        if missingCond daemons service then insert service missing
        else missing) m
    ↔ s ∈ m ∨ (s ∈ required ∧ missingCond daemons s = true) := by
  induction required generalizing m with
  | nil => simp
  | cons x rest ih =>
    simp only [List.foldl_cons]
    rw [ih]
    by_cases hx : missingCond daemons x = true
    · simp only [hx, if_true, Finset.mem_insert, List.mem_cons]
      constructor
      · rintro ((rfl | hm) | ⟨hr, hc⟩)
        · exact Or.inr ⟨Or.inl rfl, hx⟩
        · exact Or.inl hm
        · exact Or.inr ⟨Or.inr hr, hc⟩
      · rintro (hm | ⟨(rfl | hr), hc⟩)
        · exact Or.inl (Or.inr hm)
        · exact Or.inl (Or.inl rfl)
        · exact Or.inr ⟨hr, hc⟩
    · simp only [hx, if_false, List.mem_cons]
      constructor
      · rintro (hm | ⟨hr, hc⟩)
        · exact Or.inl hm
        · exact Or.inr ⟨Or.inr hr, hc⟩
      · rintro (hm | ⟨(rfl | hr), hc⟩)
        · exact Or.inl hm
        · exact absurd hc hx
        · exact Or.inr ⟨hr, hc⟩

/-- Membership in the computed missing set. -/
theorem mem_computeMissing (daemons : List (String × Service))
    (required : List String) (s : String) :
    s ∈ computeMissing required daemons
    ↔ s ∈ required ∧ missingCond daemons s = true := by
  unfold computeMissing
  rw [mem_missing_foldl]
  simp

/-- The missing condition spelled out over the lookup result. -/
theorem missingCond_iff (daemons : List (String × Service)) (s : String) :
    missingCond daemons s = true
    ↔ svcLookup daemons s = none
      ∨ ∃ svc, svcLookup daemons s = some svc ∧ svc.status = "stopped" := by
  unfold missingCond
  cases h : svcLookup daemons s with
  | none => simp
  | some svc => simp [h]

/-- C5: the Missing-Service Detector loop of check_daemons is a pure
function of the required names and the services mapping whose result is
exactly the set of required names that are absent from the mapping or
present with status stopped, and the result is invariant under permuting
the required names. -/
theorem c5_computeMissing_characterization
    (daemons : List (String × Service)) (required required' : List String)
    (hperm : required.Perm required') :
    (∀ s, s ∈ computeMissing required daemons ↔
        s ∈ required ∧ (svcLookup daemons s = none
          ∨ ∃ svc, svcLookup daemons s = some svc ∧ svc.status = "stopped"))
    ∧ computeMissing required daemons = computeMissing required' daemons := by
  constructor
  · intro s
    rw [mem_computeMissing, missingCond_iff]
  · ext s
    rw [mem_computeMissing, mem_computeMissing, hperm.mem_iff]

/-- C5 witness: the characterization instantiated on a singleton required
list over the empty mapping. -/
theorem c5_witness :
    "web" ∈ computeMissing ["web"] []
    ↔ "web" ∈ ["web"] ∧ (svcLookup [] "web" = none
        ∨ ∃ svc, svcLookup [] "web" = some svc ∧ svc.status = "stopped") :=
  (c5_computeMissing_characterization [] ["web"] ["web"]
    (List.Perm.refl _)).1 "web"

/-- C9: when the init subsystem's runtime directories are absent the
started-services glob is empty, the aggregator returns the empty mapping
without raising, and check_daemons classifies every required name as
missing. -/
theorem c9_empty_runtime_all_missing (fs : FS) (required : List String)
    (hempty : fs.globStarted = []) :
    load_daemons fs = .ok []
    ∧ check_daemons fs required = .ok required.toFinset := by
  have hld : load_daemons fs = .ok [] := by
    unfold load_daemons
    rw [hempty]
    rfl
  refine ⟨hld, ?_⟩
  unfold check_daemons
  rw [hld]
  show Except.ok (computeMissing required []) = .ok required.toFinset
  congr 1
  ext s
  rw [mem_computeMissing]
  simp [missingCond, svcLookup]

/-- C9 witness: on the no-runtime-state snapshot every required name is
reported missing. -/
theorem c9_witness :
    load_daemons fsEmpty = .ok []
    ∧ check_daemons fsEmpty ["a", "b"] =
        .ok (["a", "b"] : List String).toFinset :=
  c9_empty_runtime_all_missing fsEmpty ["a", "b"] rfl

/-- The status invariant maintained by the inner loop of load_daemons: the
status is one of the two enum values, and it is stopped exactly when some
appended daemon lacks a pid. -/
def StatusInv (svc : Service) : Prop :=
  (svc.status = "started" ∨ svc.status = "stopped")
  ∧ (svc.status = "stopped" ↔ ∃ d ∈ svc.daemons, d.pid = none)

/-- Elements of a dict assignment come from the original list or are the
new binding. -/
theorem mem_dictSet {α β : Type} [DecidableEq α] (d : List (α × β)) (k : α)
    (v : β) (x : α × β) (hx : x ∈ dictSet d k v) : x ∈ d ∨ x = (k, v) := by
  unfold dictSet at hx
  by_cases h : d.any (fun kv => kv.1 = k)
  · rw [if_pos h] at hx
    obtain ⟨kv, hkv, hmap⟩ := List.mem_map.mp hx
    by_cases hk : kv.1 = k
    · right
      rw [← hmap, if_pos hk]
    · left
      rw [← hmap, if_neg hk]
      exact hkv
  · rw [if_neg h] at hx
    rcases List.mem_append.mp hx with h1 | h2
    · exact Or.inl h1
    · right
      simpa using h2

/-- One iteration of the inner loop preserves the status invariant. -/
theorem loadDaemonsInner_inv (fs : FS) (path : String) (svc : Service)
    (entry : String) (svc' : Service) (hinv : StatusInv svc)
    (h : loadDaemonsInner fs path svc entry = .ok svc') : StatusInv svc' := by
  unfold loadDaemonsInner at h
  cases hd : load_daemon fs path with
  | error e => rw [hd] at h; exact absurd h (by simp)
  | ok daemon =>
    rw [hd] at h
    have h' : (if daemon.pid = none then
          Except.ok { status := "stopped", daemons := svc.daemons ++ [daemon] }
        else
          Except.ok
            { status := svc.status, daemons := svc.daemons ++ [daemon] })
        = Except.ok svc' := h
    by_cases hpid : daemon.pid = none
    · rw [if_pos hpid] at h'
      simp only [Except.ok.injEq] at h'
      subst h'
      refine ⟨Or.inr rfl, ?_⟩
      simp only [true_iff]
      exact ⟨daemon, by simp, hpid⟩
    · rw [if_neg hpid] at h'
      simp only [Except.ok.injEq] at h'
      subst h'
      refine ⟨hinv.1, ?_⟩
      simp only
      rw [hinv.2]
      constructor
      · rintro ⟨d, hd2, hp⟩
        exact ⟨d, by simp [hd2], hp⟩
      · rintro ⟨d, hd2, hp⟩
        rcases List.mem_append.mp hd2 with hin | hone
        · exact ⟨d, hin, hp⟩
        · exfalso
          have : d = daemon := by simpa using hone
          exact hpid (this ▸ hp)

/-- The inner loop preserves the status invariant. -/
theorem loadDaemonsLoop_inv (fs : FS) (path : String)
    (entries : List String) (svc svc' : Service) (hinv : StatusInv svc)
    (h : loadDaemonsLoop fs path svc entries = .ok svc') :
    StatusInv svc' := by
  induction entries generalizing svc with
  | nil =>
    simp only [loadDaemonsLoop, Except.ok.injEq] at h
    exact h ▸ hinv
  | cons entry rest ih =>
    simp only [loadDaemonsLoop] at h
    cases hstep : loadDaemonsInner fs path svc entry with
    | error e => rw [hstep] at h; exact absurd h (by simp)
    | ok svc1 =>
      rw [hstep] at h
      exact ih svc1 (loadDaemonsInner_inv fs path svc entry svc1 hinv hstep) h

/-- Every service record in a successful aggregator result satisfies the
status invariant. -/
theorem loadServicesLoop_inv (fs : FS) (paths : List String)
    (services out : List (String × Service))
    (hacc : ∀ p ∈ services, StatusInv p.2)
    (h : loadServicesLoop fs services paths = .ok out) :
    ∀ p ∈ out, StatusInv p.2 := by
  induction paths generalizing services with
  | nil =>
    simp only [loadServicesLoop, Except.ok.injEq] at h
    exact h ▸ hacc
  | cons path rest ih =>
    simp only [loadServicesLoop] at h
    cases hstep : loadDaemonsLoop fs path { status := "started", daemons := [] }
        (fs.globDaemons (basename path)) with
    | error e => rw [hstep] at h; exact absurd h (by simp)
    | ok svc =>
      rw [hstep] at h
      refine ih (dictSet services (basename path) svc) ?_ h
      intro p hp
      rcases mem_dictSet services (basename path) svc p hp with hold | hnew
      · exact hacc p hold
      · have hbase : StatusInv { status := "started", daemons := [] } := by
          constructor
          · exact Or.inl rfl
          · simp
        rw [hnew]
        exact loadDaemonsLoop_inv fs path (fs.globDaemons (basename path))
          _ svc hbase hstep

/-- C4: in every ServiceRecord produced by a successful run of the
aggregator, status is started exactly when every daemon in the record's
list has a resolved pid, status is stopped exactly when some daemon lacks
one, and a record with an empty daemon list is classified started. -/
theorem c4_service_status_iff (fs : FS) (m : List (String × Service))
    (name : String) (svc : Service) (hload : load_daemons fs = .ok m)
    (hmem : (name, svc) ∈ m) :
    (svc.status = "started" ↔ ∀ d ∈ svc.daemons, d.pid ≠ none)
    ∧ (svc.status = "stopped" ↔ ∃ d ∈ svc.daemons, d.pid = none)
    ∧ (svc.daemons = [] → svc.status = "started") := by
  unfold load_daemons at hload
  have hinv := loadServicesLoop_inv fs fs.globStarted [] m (by simp) hload
    (name, svc) hmem
  obtain ⟨htwo, hstop⟩ := hinv
  have hne : ("started" : String) ≠ "stopped" := by decide
  refine ⟨?_, hstop, ?_⟩
  · constructor
    · intro hs d hd hpid
      have hcontra : svc.status = "stopped" := hstop.mpr ⟨d, hd, hpid⟩
      rw [hs] at hcontra
      exact hne hcontra
    · intro hall
      rcases htwo with h | h
      · exact h
      · exfalso
        obtain ⟨d, hd, hpid⟩ := hstop.mp h
        exact hall d hd hpid
  · intro hempty
    rcases htwo with h | h
    · exact h
    · obtain ⟨d, hd, _⟩ := hstop.mp h
      rw [hempty] at hd
      simp at hd

/-- Snapshot with one started service named a and no daemon descriptor
entries at all. -/
def fsOneEmpty : FS where
  globStarted := ["/var/run/openrc/started/a"]
  globDaemons := fun _ => []
  files := fun _ => none
  alive := fun _ => false

/-- C4 witness: the service with an empty daemon list produced on the
fsOneEmpty snapshot is classified started. -/
theorem c4_witness :
    ({ status := "started", daemons := [] } : Service).status = "started" :=
  (c4_service_status_iff fsOneEmpty
    [("a", { status := "started", daemons := [] })] "a"
    { status := "started", daemons := [] } rfl (by decide)).2.2 rfl

/-- C7: in unattended mode, a tick whose check yields a non-empty missing
set makes the loop break out on that very tick: the run produces only the
completed check, no sleep and no handler call, and terminates regardless of
any further queued ticks.  Instantiated at the head tick this is the
first-tick case of the claim. -/
theorem c7_unattended_exits_without_sleep (required : List String)
    (timeout : Nat) (t : Tick) (rest : List Tick) (missing : Finset String)
    (hcheck : check_daemons t.fs required = .ok missing)
    (hne : 0 < missing.card) :
    monitor_services required timeout false (t :: rest)
      = ([MEvent.checked missing], .exited) := by
  simp [monitor_services, hcheck, hne]

/-- C7 witness: with required service a and no runtime state, the
unattended loop exits on tick one having only checked, never slept. -/
theorem c7_witness :
    monitor_services ["a"] 30 false
        [{ fs := fsEmpty, interrupt := false, responses := [] }]
      = ([MEvent.checked (insert "a" ∅)], .exited) :=
  c7_unattended_exits_without_sleep ["a"] 30
    { fs := fsEmpty, interrupt := false, responses := [] } []
    (insert "a" ∅) rfl (by decide)

/-- Projection of a completed check event to its missing set. -/
def checkedPayload? : MEvent → Option (Finset String)
  | .checked m => some m
  | _ => none

/-- Recognizer for handler invocation events. -/
def isHandlerCall : MEvent → Bool
  | .handlerCall _ _ => true
  | _ => false

/-- The handler invocation the source makes for a given missing set (lines
99-102): failure with the set when non-empty, success with None
otherwise. -/
def expectedCall (m : Finset String) : MEvent :=
  if 0 < m.card then MEvent.handlerCall "failure" (some m)
  else MEvent.handlerCall "success" none

/-- The sleep phase preserves the checked-to-handler-call correspondence of
its accumulated events and of the continuation, and it reaches the exited
outcome only through a delivered interrupt or through the continuation. -/
theorem sleepPhase_spec (timeout : Nat) (acc : List MEvent) (t : Tick)
    (next : List MEvent × MOutcome) (P : Prop)
    (hacc : (acc.filterMap checkedPayload?).map expectedCall
      = acc.filter isHandlerCall)
    (hnext : (next.1.filterMap checkedPayload?).map expectedCall
      = next.1.filter isHandlerCall)
    (hnexit : next.2 = MOutcome.exited → P) :
    (((sleepPhase timeout acc t next).1.filterMap checkedPayload?).map
        expectedCall
      = (sleepPhase timeout acc t next).1.filter isHandlerCall)
    ∧ ((sleepPhase timeout acc t next).2 = MOutcome.exited →
        t.interrupt = true ∨ P) := by
  unfold sleepPhase
  by_cases hint : t.interrupt = true
  · rw [if_pos hint]
    cases hq : query_user "Are you sure you want to quit? (Y/N)" ["Y", "N"]
        t.responses with
    | none =>
      constructor
      · simp [List.filterMap_append, List.filter_append, hacc,
          checkedPayload?, isHandlerCall]
      · intro h
        simp at h
    | some ans =>
      by_cases hY : ans = some "Y"
      · constructor
        · simp [hY, List.filterMap_append, List.filter_append, hacc,
            checkedPayload?, isHandlerCall]
        · intro _
          exact Or.inl hint
      · constructor
        · simp [hY, List.filterMap_append, List.filter_append, hacc, hnext,
            checkedPayload?, isHandlerCall]
        · intro h
          exact Or.inr (hnexit (by simpa [hY] using h))
  · rw [if_neg hint]
    constructor
    · simp [List.filterMap_append, List.filter_append, hacc, hnext,
        checkedPayload?, isHandlerCall]
    · intro h
      exact Or.inr (hnexit h)

/-- C8: in attended mode, provided every queued tick's check succeeds, the
run's handler invocations are exactly one per completed check, carrying
failure with the missing set when it is non-empty and success with None
otherwise, and the loop reaches the exited outcome only when some tick
delivered an interrupt: it never self-terminates on a failure. -/
theorem c8_attended_handler_every_tick (required : List String)
    (timeout : Nat) (ticks : List Tick)
    (hok : ∀ t ∈ ticks, ∃ m, check_daemons t.fs required = Except.ok m) :
    (((monitor_services required timeout true ticks).1.filterMap
        checkedPayload?).map expectedCall
      = (monitor_services required timeout true ticks).1.filter
          isHandlerCall)
    ∧ ((monitor_services required timeout true ticks).2 = MOutcome.exited →
        ∃ t ∈ ticks, t.interrupt = true) := by
  induction ticks with
  | nil =>
    constructor
    · simp [monitor_services]
    · intro h
      simp [monitor_services] at h
  | cons t rest ih =>
    obtain ⟨m, hm⟩ := hok t (List.mem_cons_self t rest)
    have hrest := ih (fun t' ht' => hok t' (List.mem_cons_of_mem t ht'))
    have hstep : monitor_services required timeout true (t :: rest)
        = sleepPhase timeout
            [MEvent.checked m,
              if 0 < m.card then MEvent.handlerCall "failure" (some m)
              else MEvent.handlerCall "success" none] t
            (monitor_services required timeout true rest) := by
      simp [monitor_services, hm]
    rw [hstep]
    have hacc : (([MEvent.checked m,
          if 0 < m.card then MEvent.handlerCall "failure" (some m)
          else MEvent.handlerCall "success" none] : List MEvent).filterMap
            checkedPayload?).map expectedCall
        = ([MEvent.checked m,
            if 0 < m.card then MEvent.handlerCall "failure" (some m)
            else MEvent.handlerCall "success" none] : List MEvent).filter
              isHandlerCall := by
      by_cases hc : 0 < m.card <;>
        simp [checkedPayload?, isHandlerCall, expectedCall, hc]
    have hsp := sleepPhase_spec timeout _ t _
      (∃ t' ∈ rest, t'.interrupt = true) hacc hrest.1 hrest.2
    refine ⟨hsp.1, ?_⟩
    intro hex
    rcases hsp.2 hex with hint | ⟨t', ht', hi⟩
    · exact ⟨t, List.mem_cons_self t rest, hint⟩
    · exact ⟨t', List.mem_cons_of_mem t ht', hi⟩

/-- C8 witness: one healthy tick with no interrupt, on which the handler
correspondence holds for the produced run. -/
theorem c8_witness :
    (((monitor_services [] 30 true
        [{ fs := fsEmpty, interrupt := false, responses := [] }]).1.filterMap
          checkedPayload?).map expectedCall
      = (monitor_services [] 30 true
          [{ fs := fsEmpty, interrupt := false, responses := [] }]).1.filter
            isHandlerCall) :=
  (c8_attended_handler_every_tick [] 30
    [{ fs := fsEmpty, interrupt := false, responses := [] }]
    (by
      intro t ht
      rw [List.mem_singleton] at ht
      subst ht
      exact ⟨∅, rfl⟩)).1

/-- C6: for both lifecycle wrappers, the cleanup action is registered as the
very first step, before the start action and before the loop, and the full
process trace executes it exactly once, placed after the loop exit, for
every monitor behavior and on both exit paths: a normal return (fault none)
and an unrecovered propagating fault (fault some e). -/
theorem c6_cleanup_registered_first_runs_once (defaultRL shutdownRL : String)
    (services : List String) (monA monB : List MEvent)
    (faultA faultB : Option PyErr) :
    (python_run (supervise_runlevel_body defaultRL shutdownRL monA faultA)
      = [PEvent.registered (Cleanup.switchRL shutdownRL),
          PEvent.runlevelSwitch defaultRL, PEvent.loopEnter]
        ++ monA.map PEvent.monitorStep
        ++ [PEvent.loopExit faultA,
            PEvent.cleanupRun (Cleanup.switchRL shutdownRL)])
    ∧ ((python_run (supervise_runlevel_body defaultRL shutdownRL monA
          faultA)).countP
        (fun e => e = PEvent.cleanupRun (Cleanup.switchRL shutdownRL)) = 1)
    ∧ (python_run (supervise_services_body services monB faultB)
      = [PEvent.registered (Cleanup.stopSvcs services)]
        ++ services.map PEvent.serviceStart
        ++ [PEvent.loopEnter]
        ++ monB.map PEvent.monitorStep
        ++ [PEvent.loopExit faultB,
            PEvent.cleanupRun (Cleanup.stopSvcs services)])
    ∧ ((python_run (supervise_services_body services monB faultB)).countP
        (fun e => e = PEvent.cleanupRun (Cleanup.stopSvcs services)) = 1) := by
  have hshape1 :
      python_run (supervise_runlevel_body defaultRL shutdownRL monA faultA)
        = [PEvent.registered (Cleanup.switchRL shutdownRL),
            PEvent.runlevelSwitch defaultRL, PEvent.loopEnter]
          ++ monA.map PEvent.monitorStep
          ++ [PEvent.loopExit faultA,
              PEvent.cleanupRun (Cleanup.switchRL shutdownRL)] := by
    simp [python_run, supervise_runlevel_body, atexitRunAll]
  have hshape2 :
      python_run (supervise_services_body services monB faultB)
        = [PEvent.registered (Cleanup.stopSvcs services)]
          ++ services.map PEvent.serviceStart
          ++ [PEvent.loopEnter]
          ++ monB.map PEvent.monitorStep
          ++ [PEvent.loopExit faultB,
              PEvent.cleanupRun (Cleanup.stopSvcs services)] := by
    simp [python_run, supervise_services_body, atexitRunAll]
  have hmapA : (monA.map PEvent.monitorStep).countP
      (fun e => e = PEvent.cleanupRun (Cleanup.switchRL shutdownRL)) = 0 := by
    rw [List.countP_eq_zero]
    intro a ha
    obtain ⟨e, _, rfl⟩ := List.mem_map.mp ha
    simp
  have hmapB : (monB.map PEvent.monitorStep).countP
      (fun e => e = PEvent.cleanupRun (Cleanup.stopSvcs services)) = 0 := by
    rw [List.countP_eq_zero]
    intro a ha
    obtain ⟨e, _, rfl⟩ := List.mem_map.mp ha
    simp
  have hmapS : (services.map PEvent.serviceStart).countP
      (fun e => e = PEvent.cleanupRun (Cleanup.stopSvcs services)) = 0 := by
    rw [List.countP_eq_zero]
    intro a ha
    obtain ⟨s, _, rfl⟩ := List.mem_map.mp ha
    simp
  refine ⟨hshape1, ?_, hshape2, ?_⟩
  · rw [hshape1]
    simp [List.countP_append, List.countP_cons, hmapA]
  · rw [hshape2]
    simp [List.countP_append, List.countP_cons, hmapB, hmapS]

/-- The index returned by pyIndex? is within bounds. -/
theorem pyIndex?_lt {α : Type} [DecidableEq α] (l : List α) (a : α) (i : Nat)
    (h : pyIndex? l a = some i) : i < l.length := by
  induction l generalizing i with
  | nil => simp [pyIndex?] at h
  | cons x rest ih =>
    by_cases hx : x = a
    · simp [pyIndex?, hx] at h
      simp [List.length_cons]
      omega
    · simp [pyIndex?, hx] at h
      obtain ⟨j, hj, hji⟩ := h
      have := ih j hj
      simp [List.length_cons]
      omega

/-- pyIndex? finds nothing exactly when the element is absent. -/
theorem pyIndex?_eq_none_iff {α : Type} [DecidableEq α] (l : List α)
    (a : α) : pyIndex? l a = none ↔ a ∉ l := by
  induction l with
  | nil => simp [pyIndex?]
  | cons x rest ih =>
    by_cases hx : x = a
    · simp [pyIndex?, hx]
    · simp only [pyIndex?, if_neg hx, Option.map_eq_none', ih,
        List.mem_cons]
      constructor
      · intro hnr hc
        rcases hc with h1 | h1
        · exact hx h1.symm
        · exact hnr h1
      · intro hnc hr
        exact hnc (Or.inr hr)

/-- C10: query_user over the confirmation gate's two options returns the
matching option in its original casing for any casing of the operator
input, re-prompts without returning on a non-matching input whenever at
least two options are supplied, returns None on a non-matching input only
when at most one option is supplied, in general returns a string only when
some input matched an option case-insensitively, and, as used by the
interrupt gate of monitor_services, the input y ends supervision while the
input n resumes polling. -/
theorem c10_query_user_gate (q : String) (opts : List String) (r v : String)
    (rest inputs : List String) (timeout : Nat) (acc : List MEvent)
    (t : Tick) (next : List MEvent × MOutcome) :
    (query_user q ["Y", "N"] ("y" :: rest) = some (some "Y")
      ∧ query_user q ["Y", "N"] ("Y" :: rest) = some (some "Y")
      ∧ query_user q ["Y", "N"] ("n" :: rest) = some (some "N")
      ∧ query_user q ["Y", "N"] ("N" :: rest) = some (some "N"))
    ∧ (2 ≤ opts.length → pyLower r ∉ opts.map pyLower →
        query_user q opts (r :: rest) = query_user q opts rest)
    ∧ (opts.length ≤ 1 → pyLower r ∉ opts.map pyLower →
        query_user q opts (r :: rest) = some none)
    ∧ (2 ≤ opts.length → query_user q opts inputs ≠ some none)
    ∧ (query_user q opts inputs = some (some v) →
        ∃ rr ∈ inputs, ∃ i,
          pyIndex? (opts.map pyLower) (pyLower rr) = some i
          ∧ opts.get? i = some v)
    ∧ (t.interrupt = true → t.responses = ["y"] →
        sleepPhase timeout acc t next = (acc ++ [MEvent.prompted], .exited))
    ∧ (t.interrupt = true → t.responses = ["n"] →
        sleepPhase timeout acc t next
          = (acc ++ [MEvent.prompted] ++ next.1, next.2)) := by
  refine ⟨⟨rfl, rfl, rfl, rfl⟩, ?_, ?_, ?_, ?_, ?_, ?_⟩
  · intro hlen hnm
    have hpy : pyIndex? (opts.map pyLower) (pyLower r) = none :=
      (pyIndex?_eq_none_iff _ _).mpr hnm
    have hnle : ¬(opts.length ≤ 1) := by omega
    simp [query_user, hpy, hnle]
  · intro hlen1 hnm
    have hpy : pyIndex? (opts.map pyLower) (pyLower r) = none :=
      (pyIndex?_eq_none_iff _ _).mpr hnm
    simp [query_user, hpy, hlen1]
  · intro hlen
    induction inputs with
    | nil => simp [query_user]
    | cons rr rrest ih =>
      simp only [query_user]
      cases hpy : pyIndex? (opts.map pyLower) (pyLower rr) with
      | some i =>
        have hi : i < opts.length := by
          have hlt := pyIndex?_lt (opts.map pyLower) (pyLower rr) i hpy
          simpa using hlt
        intro hcon
        have hcon' : some (opts.get? i) = some (none : Option String) := hcon
        have hget : opts.get? i = none := by injection hcon'
        rw [List.get?_eq_none] at hget
        omega
      | none =>
        have hnle : ¬(opts.length ≤ 1) := by omega
        intro hcon
        have hcon' : (if opts.length ≤ 1 then some none
            else query_user q opts rrest) = some none := hcon
        rw [if_neg hnle] at hcon'
        exact ih hcon'
  · induction inputs with
    | nil =>
      intro h
      exact absurd h (by simp [query_user])
    | cons rr rrest ih =>
      intro h
      simp only [query_user] at h
      cases hpy : pyIndex? (opts.map pyLower) (pyLower rr) with
      | some i =>
        rw [hpy] at h
        have h' : some (opts.get? i) = some (some v) := h
        have hget : opts.get? i = some v := by injection h'
        exact ⟨rr, List.mem_cons_self rr rrest, i, hpy, hget⟩
      | none =>
        rw [hpy] at h
        have h'' : (if opts.length ≤ 1 then some none
            else query_user q opts rrest) = some (some v) := h
        by_cases hle : opts.length ≤ 1
        · rw [if_pos hle] at h''
          have hfalse : (none : Option String) = some v := by injection h''
          exact absurd hfalse (by simp)
        · rw [if_neg hle] at h''
          obtain ⟨rr2, hrr2, i, hpy2, hget⟩ := ih h''
          exact ⟨rr2, List.mem_cons_of_mem rr hrr2, i, hpy2, hget⟩
  · intro hint hresp
    unfold sleepPhase
    rw [if_pos hint, hresp]
    have hq : query_user "Are you sure you want to quit? (Y/N)" ["Y", "N"]
        ["y"] = some (some "Y") := rfl
    rw [hq]
    simp
  · intro hint hresp
    unfold sleepPhase
    rw [if_pos hint, hresp]
    have hq : query_user "Are you sure you want to quit? (Y/N)" ["Y", "N"]
        ["n"] = some (some "N") := rfl
    rw [hq]
    simp

/-- C10 witness: a non-matching input against the two gate options
re-prompts instead of returning. -/
theorem c10_witness :
    query_user "q" ["Y", "N"] ["x", "y"] = query_user "q" ["Y", "N"] ["y"] :=
  (c10_query_user_gate "q" ["Y", "N"] "x" "v" ["y"] [] 0 []
    { fs := fsEmpty, interrupt := false, responses := [] }
    ([], .outOfTicks)).2.1 (by decide) (by decide)

end OpenrcWatch
